import Mathlib

/-! Verification development for the Across Mexico Booking Board application
(`app.py`). The application keeps three SQLite tables: `events` (booking
rows keyed by `event_id`), and the two master lists `suppliers` and
`services` (each a single primary-key column). The operations embedded here
are the ones the claims are about: `add_supplier`, `add_service`,
`upsert_row`, `delete_event`, `import_csv_df`, and the submit handler of
the `simple_form` Streamlit form.

The embedding is shallow: the database is an explicit `AppState` value, a
SQL `DELETE`/`INSERT` pair becomes list filtering and appending, a raised
`ValueError` becomes an `Option String` error component returned next to
the (unchanged) state, and Python string values stay `String`. -/

namespace BookingBoard

/-- Python `str.strip()` on a list of characters: drop whitespace from the
front, then from the back (via reversal). -/
def pyStripAux (l : List Char) : List Char :=
  ((l.dropWhile Char.isWhitespace).reverse.dropWhile Char.isWhitespace).reverse

/-- Python `str.strip()`: remove leading and trailing whitespace. -/
def pyStrip (s : String) : String :=
  ⟨pyStripAux s.data⟩

/-- One row of the `events` table, mirroring the columns created by
`ensure_tables`. SQLite is dynamically typed and the import writes CSV
cells through unchanged, so every field is kept as a string (`pax`
included). -/
structure EventRow where
  event_id : String
  supplier_name : String
  date : String
  start_time : String
  end_time : String
  client_name : String
  pax : String
  service : String
  status : String
deriving DecidableEq, Repr

/-- The persistent state: the `events` table and the two master lists. -/
structure AppState where
  events : List EventRow
  suppliers : List String
  services : List String
deriving DecidableEq, Repr

/-- `add_supplier(name)`: strip the name; an empty result is a no-op;
otherwise `INSERT OR IGNORE` into the `suppliers` primary-key table,
i.e. insert only when absent. -/
def add_supplier (name : String) (st : AppState) : AppState :=
  if pyStrip name = "" then st
  else if st.suppliers.contains (pyStrip name) then st
  else { st with suppliers := st.suppliers ++ [pyStrip name] }

/-- `add_service(name)`: strip the name; an empty result is a no-op;
otherwise `INSERT OR IGNORE` into the `services` primary-key table. -/
def add_service (name : String) (st : AppState) : AppState :=
  if pyStrip name = "" then st
  else if st.services.contains (pyStrip name) then st
  else { st with services := st.services ++ [pyStrip name] }

/-- `upsert_row(row)`: `DELETE FROM events WHERE event_id = :id`, then
append-insert the given row. -/
def upsert_row (row : EventRow) (st : AppState) : AppState :=
  { st with
    events := st.events.filter (fun r => r.event_id != row.event_id) ++ [row] }

/-- `delete_event(event_id)`: `DELETE FROM events WHERE event_id = :id`. -/
def delete_event (id : String) (st : AppState) : AppState :=
  { st with events := st.events.filter (fun r => r.event_id != id) }

/-- A row of an uploaded CSV dataframe: column name to cell value. -/
abbrev DfRow := List (String × String)

/-- An uploaded CSV dataframe: its header columns and its rows. -/
structure DataFrame where
  columns : List String
  rows : List DfRow
deriving DecidableEq, Repr

/-- Cell lookup by column name in a dataframe row. -/
def getCell (r : DfRow) (c : String) : String :=
  ((r.find? (fun p => p.1 == c)).map Prod.snd).getD ""

/-- The `required` set of `import_csv_df`: the nine exact column names of
the events schema, `status` included. -/
def requiredColumns : List String :=
  ["event_id", "supplier_name", "date", "start_time", "end_time",
   "client_name", "pax", "service", "status"]

/-- `required - set(df.columns)`: the required column names absent from the
dataframe header. -/
def missingColumns (df : DataFrame) : List String :=
  requiredColumns.filter (fun c => !(df.columns.contains c))

/-- Conversion of one dataframe row into an `events` row: `df.to_sql`
writes each schema column's cell through unchanged. -/
def toEventRow (r : DfRow) : EventRow :=
  { event_id := getCell r "event_id"
    supplier_name := getCell r "supplier_name"
    date := getCell r "date"
    start_time := getCell r "start_time"
    end_time := getCell r "end_time"
    client_name := getCell r "client_name"
    pax := getCell r "pax"
    service := getCell r "service"
    status := getCell r "status" }

/-- Lexicographic code-point comparison of character lists, the order
Python `sorted` uses on strings. -/
def strLtAux : List Char → List Char → Bool
  | [], [] => false
  | [], _ :: _ => true
  | _ :: _, [] => false
  | a :: as, b :: bs =>
    if a.toNat < b.toNat then true
    else if b.toNat < a.toNat then false
    else strLtAux as bs

/-- Python `<` on strings. -/
def strLt (s t : String) : Bool :=
  strLtAux s.data t.data

/-- Ascending insertion used to mirror Python `sorted`. -/
def insortStr (s : String) : List String → List String
  | [] => [s]
  | t :: ts => if strLt t s then t :: insortStr s ts else s :: t :: ts

/-- Python `sorted` on a list of strings. -/
def sortStrs (l : List String) : List String :=
  l.foldr insortStr []

/-- `sorted(set(df[col].astype(str).str.strip()))`: strip every cell of the
column, deduplicate, sort. -/
def sortedStrippedColumn (df : DataFrame) (col : String) : List String :=
  sortStrs ((df.rows.map (fun r => pyStrip (getCell r col))).dedup)

/-- Row-by-row insertion into the `events` table, whose `event_id` column
is `TEXT PRIMARY KEY`: each `INSERT` first checks the key against the rows
already in the table (the previously stored ones and the batch rows
inserted before it); a violation raises, yielding `none`. -/
def insertRows : List EventRow → List EventRow → Option (List EventRow)
  | acc, [] => some acc
  | acc, r :: rs =>
    if acc.any (fun e => e.event_id == r.event_id) then none
    else insertRows (acc ++ [r]) rs

/-- The message of the `IntegrityError` SQLite raises on a primary-key
collision in the `events` table. -/
def uniqueViolationMsg : String :=
  "UNIQUE constraint failed: events.event_id"

/-- `import_csv_df(df)`: if any of the nine required column names is
missing, raise `ValueError("Missing columns: ...")` naming the missing
ones, before touching the database. Otherwise `df.to_sql` appends every
row to the `events` table inside one `engine.begin()` transaction: a row
whose `event_id` collides with a stored row or with an earlier row of the
batch violates the primary key, the `IntegrityError` propagates and the
transaction rolls back, persisting nothing. On success, each distinct
stripped supplier name and each distinct stripped service name is then
registered in the master lists. The returned pair is the post-call
database state and the raised message, if any. -/
def import_csv_df (df : DataFrame) (st : AppState) : AppState × Option String :=
  if missingColumns df = [] then
    match insertRows st.events (df.rows.map toEventRow) with
    | none => (st, some uniqueViolationMsg)
    | some evs =>
      ((sortedStrippedColumn df "service").foldl (fun s n => add_service n s)
        ((sortedStrippedColumn df "supplier_name").foldl (fun s n => add_supplier n s)
          { st with events := evs }), none)
  else
    (st, some ("Missing columns: " ++ String.intercalate ", " (missingColumns df)))

/-- A time-of-day as entered in the form's time inputs. -/
structure TimeOfDay where
  hour : Nat
  minute : Nat
deriving DecidableEq, Repr

/-- Minutes since midnight; `datetime.combine` comparison on a shared date
reduces to this comparison of the times. -/
def minutesOf (t : TimeOfDay) : Nat :=
  t.hour * 60 + t.minute

/-- Two-digit zero padding as in `strftime`. -/
def pad2 (n : Nat) : String :=
  if n < 10 then "0" ++ toString n else toString n

/-- `strftime("%H:%M")` on a form time input. -/
def fmtTime (t : TimeOfDay) : String :=
  pad2 t.hour ++ ":" ++ pad2 t.minute

/-- The inputs reaching the `simple_form` submit handler: the resolved
supplier and service texts (the selected entry, or the new-name text when
"+ Add new…" was selected), the client text, the date already rendered by
`str(...)`, the two time inputs, pax, status and the optional id field.
`now_ts` stands for `datetime.now().strftime("%Y%m%d%H%M%S")`, the
environment-supplied 14-digit wall-clock stamp. -/
structure FormData where
  supplier : String
  service : String
  client : String
  date : String
  start_t : TimeOfDay
  end_t : TimeOfDay
  pax : Int
  status : String
  event_id_field : String
  now_ts : String
deriving DecidableEq, Repr

/-- `supplier_name` in the submit handler: the resolved supplier text,
stripped. -/
def formSupplier (f : FormData) : String :=
  pyStrip f.supplier

/-- `service_name` in the submit handler: the resolved service text,
stripped. -/
def formService (f : FormData) : String :=
  pyStrip f.service

/-- The stripped client text of the submit handler. -/
def formClient (f : FormData) : String :=
  pyStrip f.client

/-- `eid`: the stripped id field when non-blank, else
`"E" + datetime.now().strftime("%Y%m%d%H%M%S")`. -/
def formEid (f : FormData) : String :=
  if pyStrip f.event_id_field ≠ "" then pyStrip f.event_id_field
  else "E" ++ f.now_ts

/-- The `row` dict assembled by the submit handler. -/
def formRow (f : FormData) : EventRow :=
  { event_id := formEid f
    supplier_name := formSupplier f
    date := f.date
    start_time := fmtTime f.start_t
    end_time := fmtTime f.end_t
    client_name := formClient f
    pax := toString f.pax
    service := formService f
    status := f.status }

/-- The `errors` list of the submit handler's minimal validations, in
source order. -/
def formErrors (f : FormData) : List String :=
  (if formSupplier f = "" then ["Supplier is required."] else []) ++
  (if formService f = "" then ["Service is required."] else []) ++
  (if formClient f = "" then ["Client is required."] else []) ++
  (if minutesOf f.end_t ≤ minutesOf f.start_t then
    ["End time must be greater than start time."] else [])

/-- The `simple_form` submit handler: strip supplier, service and client;
take the stripped id field, or `"E" + now.strftime("%Y%m%d%H%M%S")` when
it is blank; collect the four validation messages; on any error show them
and leave the database untouched, otherwise `add_supplier`, `add_service`
and `upsert_row` the assembled row. -/
def submit_form (f : FormData) (st : AppState) : AppState × Option (List String) :=
  if formErrors f = [] then
    (upsert_row (formRow f)
      (add_service (formService f) (add_supplier (formSupplier f) st)), none)
  else
    (st, some (formErrors f))

/-- Empty database. -/
def st0 : AppState := ⟨[], [], []⟩

/-- Shorthand for building one CSV row holding all nine schema columns. -/
def rowCells (eid sup d stt ent cl px sv stat : String) : DfRow :=
  [("event_id", eid), ("supplier_name", sup), ("date", d), ("start_time", stt),
   ("end_time", ent), ("client_name", cl), ("pax", px), ("service", sv),
   ("status", stat)]

/-! Helper lemmas. -/

lemma dropWhile_eq_self_of_head {α : Type} (p : α → Bool) (l : List α) (a : α)
    (h : l.head? = some a) (hp : p a = false) : l.dropWhile p = l := by
  cases l with
  | nil => simp at h
  | cons x xs =>
    simp only [List.head?_cons, Option.some.injEq] at h
    subst h
    simp [List.dropWhile, hp]

lemma getLast?_dropWhile {α : Type} (p : α → Bool) (y : List α)
    (h : y.dropWhile p ≠ []) : (y.dropWhile p).getLast? = y.getLast? := by
  obtain ⟨t, ht⟩ := (List.dropWhile_suffix p : y.dropWhile p <:+ y)
  conv_rhs => rw [← ht]
  rw [List.getLast?_append]
  cases hg : (y.dropWhile p).getLast? with
  | none =>
    exact absurd (List.getLast?_eq_none_iff.mp hg) h
  | some a =>
    simp [Option.or]

lemma pyStripAux_idem (l : List Char) : pyStripAux (pyStripAux l) = pyStripAux l := by
  by_cases hr : (l.dropWhile Char.isWhitespace).reverse.dropWhile Char.isWhitespace = []
  · simp [pyStripAux, hr]
  · have hmne : l.dropWhile Char.isWhitespace ≠ [] := by
      intro h0
      rw [h0] at hr
      simp at hr
    obtain ⟨x, xs, hx⟩ := List.exists_cons_of_ne_nil hmne
    have hwx : Char.isWhitespace x = false := by
      have hh := List.head?_dropWhile_not Char.isWhitespace l
      rw [hx] at hh
      simpa using hh
    have hlast : ((l.dropWhile Char.isWhitespace).reverse.dropWhile
        Char.isWhitespace).getLast? = some x := by
      rw [getLast?_dropWhile _ _ hr, List.getLast?_reverse, hx]
      rfl
    have h1 : (((l.dropWhile Char.isWhitespace).reverse.dropWhile
          Char.isWhitespace).reverse).dropWhile Char.isWhitespace =
        ((l.dropWhile Char.isWhitespace).reverse.dropWhile Char.isWhitespace).reverse := by
      refine dropWhile_eq_self_of_head _ _ x ?_ hwx
      rw [List.head?_reverse]
      exact hlast
    unfold pyStripAux
    rw [h1, List.reverse_reverse, List.dropWhile_idempotent]

lemma pyStrip_idem (s : String) : pyStrip (pyStrip s) = pyStrip s :=
  congrArg String.mk (pyStripAux_idem s.data)

lemma formErrors_nil (f : FormData) (h : formErrors f = []) :
    formSupplier f ≠ "" ∧ formService f ≠ "" ∧ formClient f ≠ "" ∧
      minutesOf f.start_t < minutesOf f.end_t := by
  unfold formErrors at h
  split_ifs at h <;> simp_all

/-! Concrete tables and states used by the claim theorems. -/

/-- A table carrying the eight other schema columns but no `status`. -/
def dfNoStatus : DataFrame :=
  ⟨["event_id", "supplier_name", "date", "start_time", "end_time",
    "client_name", "pax", "service"],
   [[("event_id", "E1"), ("supplier_name", "Etien"), ("date", "2024-06-01"),
     ("start_time", "09:00"), ("end_time", "13:30"), ("client_name", "Ana"),
     ("pax", "2"), ("service", "Food tour")]]⟩

/-- A table lacking only the `pax` column. -/
def dfNoPax : DataFrame :=
  ⟨["event_id", "supplier_name", "date", "start_time", "end_time",
    "client_name", "service", "status"], []⟩

/-- A second table lacking the `pax` column, with one row. -/
def dfNoPax2 : DataFrame :=
  ⟨["event_id", "supplier_name", "date", "start_time", "end_time",
    "client_name", "service", "status"],
   [[("event_id", "E2"), ("supplier_name", "Gaby"), ("date", "2024-06-02"),
     ("start_time", "10:00"), ("end_time", "12:00"), ("client_name", "Luis"),
     ("service", "City walk"), ("status", "hold")]]⟩

/-- A database holding one event and one entry in each master list. -/
def stSample : AppState :=
  ⟨[{ event_id := "E1", supplier_name := "Etien", date := "2024-06-01",
      start_time := "09:00", end_time := "13:30", client_name := "Ana",
      pax := "2", service := "Food tour", status := "booked" }],
   ["Etien"], ["Food tour"]⟩

/-- Claim C1, counterexample: the claim says a table missing only a status
column does not fail; on a table having the eight other schema columns and
no `status`, `import_csv_df` does fail, raising the missing-columns message
naming `status` — `status` belongs to the required set. -/
theorem C1_counterexample :
    (import_csv_df dfNoStatus st0).2 = some "Missing columns: status" := by
  decide

/-- Claim C1, amended: the import requires the nine exact schema column
names (`status` included, with no role synonyms and no defaulting); when
any are absent it fails with a message built from the missing ones, and
the missing list holds exactly the required names absent from the header. -/
theorem C1_missing_columns_fatal (df : DataFrame) (st : AppState)
    (h : missingColumns df ≠ []) :
    (import_csv_df df st).2 =
      some ("Missing columns: " ++ String.intercalate ", " (missingColumns df)) ∧
    ∀ c, c ∈ missingColumns df ↔ (c ∈ requiredColumns ∧ c ∉ df.columns) := by
  constructor
  · unfold import_csv_df
    rw [if_neg h]
  · intro c
    unfold missingColumns
    simp [List.mem_filter, List.elem_iff]

/-- Claim C1, witness: the amended theorem applied to the table lacking
only `pax`. -/
theorem C1_witness :
    (import_csv_df dfNoPax st0).2 =
      some ("Missing columns: " ++ String.intercalate ", " (missingColumns dfNoPax)) ∧
    ∀ c, c ∈ missingColumns dfNoPax ↔ (c ∈ requiredColumns ∧ c ∉ dfNoPax.columns) :=
  C1_missing_columns_fatal dfNoPax st0 (by decide)

/-- Claim C2: whenever `import_csv_df` raises the missing-columns error,
the whole database — events table and both master lists — is exactly as
before the call: the raise precedes every write. -/
theorem C2_error_aborts_before_persistence (df : DataFrame) (st : AppState)
    (msg : String) (h : (import_csv_df df st).2 = some msg) :
    (import_csv_df df st).1 = st := by
  unfold import_csv_df at h ⊢
  by_cases hm : missingColumns df = []
  · rw [if_pos hm] at h ⊢
    cases hr : insertRows st.events (df.rows.map toEventRow) with
    | none =>
      rfl
    | some out =>
      rw [hr] at h
      simp at h
  · rw [if_neg hm]

/-- Claim C2, witness: importing a one-row table lacking `pax` into a
populated database leaves that database untouched. -/
theorem C2_witness : (import_csv_df dfNoPax2 stSample).1 = stSample :=
  C2_error_aborts_before_persistence dfNoPax2 stSample
    "Missing columns: pax" (by decide)

/-- A one-row table whose supplier cell has surrounding whitespace and
whose client cell is empty. -/
def dfUntrimmed : DataFrame :=
  ⟨requiredColumns,
   [rowCells "E30" " Bob " "2024-06-01" "09:00" "13:30" "" "2" "Food tour" "booked"]⟩

/-- Claim C7, counterexample: the claim says every Event the import
persists has trimmed non-empty `supplier_name` and `client_name`;
importing a row whose supplier cell is `" Bob "` and whose client cell is
empty persists that Event untouched. -/
theorem C7_counterexample :
    (import_csv_df dfUntrimmed st0).1.events.map
      (fun r => (r.supplier_name, r.client_name)) = [(" Bob ", "")] ∧
    (import_csv_df dfUntrimmed st0).2 = none :=
  ⟨by decide, by decide⟩

/-- Claim C7, amended: only the manual form guarantees it — a row the
`simple_form` submit handler persists has `supplier_name` and
`client_name` stripped of surrounding whitespace and non-empty, while the
CSV import writes its rows verbatim with no such guarantee. -/
theorem C7_form_row_trimmed (f : FormData) (st : AppState)
    (h : (submit_form f st).2 = none) :
    (submit_form f st).1.events.getLast? = some (formRow f) ∧
    pyStrip (formRow f).supplier_name = (formRow f).supplier_name ∧
    (formRow f).supplier_name ≠ "" ∧
    pyStrip (formRow f).client_name = (formRow f).client_name ∧
    (formRow f).client_name ≠ "" := by
  unfold submit_form at h ⊢
  by_cases he : formErrors f = []
  · rw [if_pos he]
    have hne := formErrors_nil f he
    refine ⟨?_, pyStrip_idem f.supplier, hne.1, pyStrip_idem f.client, hne.2.2.1⟩
    show (upsert_row (formRow f) _).events.getLast? = some (formRow f)
    unfold upsert_row
    exact List.getLast?_concat _
  · rw [if_neg he] at h
    simp at h

/-- The inputs of one valid form submission, with a client text carrying
surrounding whitespace and a blank id field. -/
def fSample : FormData :=
  ⟨"Etien", "Food tour", " Ana ", "2024-06-01", ⟨9, 0⟩, ⟨10, 0⟩, 2,
   "booked", "", "20240601083000"⟩

/-- Claim C7, witness: the amended theorem applied to one valid
submission. -/
theorem C7_witness :
    (submit_form fSample st0).1.events.getLast? = some (formRow fSample) ∧
    pyStrip (formRow fSample).supplier_name = (formRow fSample).supplier_name ∧
    (formRow fSample).supplier_name ≠ "" ∧
    pyStrip (formRow fSample).client_name = (formRow fSample).client_name ∧
    (formRow fSample).client_name ≠ "" :=
  C7_form_row_trimmed fSample st0 (by decide)

/-- Claim C8: `upsert_row` is a full-row replace by identifier — the rows
whose id equals the given row's id reduce to exactly the given row, every
row with a different id survives unchanged, the master lists are
untouched, and the events table is literally the id-deletion of the old
table followed by the inserted row. -/
theorem C8_upsert_full_replace (row : EventRow) (st : AppState) :
    (upsert_row row st).events =
      st.events.filter (fun r => r.event_id != row.event_id) ++ [row] ∧
    (upsert_row row st).events.filter (fun r => r.event_id == row.event_id) = [row] ∧
    (upsert_row row st).events.filter (fun r => r.event_id != row.event_id) =
      st.events.filter (fun r => r.event_id != row.event_id) ∧
    (upsert_row row st).suppliers = st.suppliers ∧
    (upsert_row row st).services = st.services := by
  refine ⟨rfl, ?_, ?_, rfl, rfl⟩
  · show (st.events.filter (fun r => r.event_id != row.event_id) ++ [row]).filter
        (fun r => r.event_id == row.event_id) = [row]
    rw [List.filter_append, List.filter_filter]
    simp
  · show (st.events.filter (fun r => r.event_id != row.event_id) ++ [row]).filter
        (fun r => r.event_id != row.event_id) =
      st.events.filter (fun r => r.event_id != row.event_id)
    rw [List.filter_append, List.filter_filter]
    simp

lemma add_supplier_idem (name : String) (st : AppState) :
    add_supplier name (add_supplier name st) = add_supplier name st := by
  by_cases h0 : pyStrip name = ""
  · unfold add_supplier
    rw [if_pos h0, if_pos h0]
  · have hmem : (add_supplier name st).suppliers.contains (pyStrip name) = true := by
      unfold add_supplier
      rw [if_neg h0]
      by_cases hc : st.suppliers.contains (pyStrip name) = true
      · rw [if_pos hc]
        exact hc
      · rw [if_neg hc]
        simp [List.elem_iff]
    conv_lhs => rw [add_supplier]
    rw [if_neg h0, if_pos hmem]

lemma add_service_idem (name : String) (st : AppState) :
    add_service name (add_service name st) = add_service name st := by
  by_cases h0 : pyStrip name = ""
  · unfold add_service
    rw [if_pos h0, if_pos h0]
  · have hmem : (add_service name st).services.contains (pyStrip name) = true := by
      unfold add_service
      rw [if_neg h0]
      by_cases hc : st.services.contains (pyStrip name) = true
      · rw [if_pos hc]
        exact hc
      · rw [if_neg hc]
        simp [List.elem_iff]
    conv_lhs => rw [add_service]
    rw [if_neg h0, if_pos hmem]

lemma insert_if_absent_count (l : List String) (n : String) (hc : l.count n ≤ 1) :
    (if l.contains n then l else l ++ [n]).count n = 1 := by
  by_cases hm : l.contains n = true
  · rw [if_pos hm]
    have hmem : n ∈ l := List.elem_iff.mp hm
    have hne : l.count n ≠ 0 := fun hz => (List.count_eq_zero.mp hz) hmem
    omega
  · rw [if_neg hm]
    have hz : l.count n = 0 :=
      List.count_eq_zero.mpr (fun hmem => hm (List.elem_iff.mpr hmem))
    rw [List.count_append, hz]
    simp

lemma add_supplier_count (name : String) (st : AppState)
    (h0 : pyStrip name ≠ "") (hc : st.suppliers.count (pyStrip name) ≤ 1) :
    (add_supplier name st).suppliers.count (pyStrip name) = 1 := by
  unfold add_supplier
  rw [if_neg h0]
  have := insert_if_absent_count st.suppliers (pyStrip name) hc
  by_cases hm : st.suppliers.contains (pyStrip name) = true
  · rw [if_pos hm]
    rw [if_pos hm] at this
    exact this
  · rw [if_neg hm]
    rw [if_neg hm] at this
    exact this

lemma add_service_count (name : String) (st : AppState)
    (h0 : pyStrip name ≠ "") (hc : st.services.count (pyStrip name) ≤ 1) :
    (add_service name st).services.count (pyStrip name) = 1 := by
  unfold add_service
  rw [if_neg h0]
  have := insert_if_absent_count st.services (pyStrip name) hc
  by_cases hm : st.services.contains (pyStrip name) = true
  · rw [if_pos hm]
    rw [if_pos hm] at this
    exact this
  · rw [if_neg hm]
    rw [if_neg hm] at this
    exact this

/-- Claim C9: registering a supplier or service name is insert-if-absent
and idempotent — repeating `add_supplier` or `add_service` with the same
name changes nothing further, and from any database whose master list
holds the stripped name at most once (as the primary key guarantees), one
registration leaves exactly one entry for it. -/
theorem C9_master_registration_idempotent (name : String) (st : AppState)
    (h0 : pyStrip name ≠ "")
    (h1 : st.suppliers.count (pyStrip name) ≤ 1)
    (h2 : st.services.count (pyStrip name) ≤ 1) :
    add_supplier name (add_supplier name st) = add_supplier name st ∧
    add_service name (add_service name st) = add_service name st ∧
    (add_supplier name st).suppliers.count (pyStrip name) = 1 ∧
    (add_service name st).services.count (pyStrip name) = 1 :=
  ⟨add_supplier_idem name st, add_service_idem name st,
   add_supplier_count name st h0 h1, add_service_count name st h0 h2⟩

/-- Claim C9, witness: registering `"Etien"` again on the populated
database — already a supplier, not yet a service — is idempotent and
leaves one entry in each master list. -/
theorem C9_witness :
    add_supplier "Etien" (add_supplier "Etien" stSample) =
      add_supplier "Etien" stSample ∧
    add_service "Etien" (add_service "Etien" stSample) =
      add_service "Etien" stSample ∧
    (add_supplier "Etien" stSample).suppliers.count (pyStrip "Etien") = 1 ∧
    (add_service "Etien" stSample).services.count (pyStrip "Etien") = 1 :=
  C9_master_registration_idempotent "Etien" stSample
    (by decide) (by decide) (by decide)

/-- Claim C10: a name stripping to the empty string makes `add_supplier`
and `add_service` return before touching the database — both are complete
no-ops. -/
theorem C10_blank_name_noop (name : String) (st : AppState)
    (h : pyStrip name = "") :
    add_supplier name st = st ∧ add_service name st = st := by
  unfold add_supplier add_service
  rw [if_pos h, if_pos h]
  exact ⟨rfl, rfl⟩

/-- Claim C10, witness: registering a whitespace-only name on the
populated database changes nothing. -/
theorem C10_witness :
    add_supplier "   " stSample = stSample ∧ add_service "   " stSample = stSample :=
  C10_blank_name_noop "   " stSample (by decide)

end BookingBoard
